import Mathlib

/-!
A shallow embedding of the GLed LED-control class (src/GLed.h, src/GLed.cpp).

Physical effects (pinMode, digitalWrite, delay / vTaskDelay) are recorded as a
trace of events.  The FreeRTOS background blink task (`task_flash`) is embedded
as explicit interleaving steps: `task_cycle` is one iteration of its while loop
and `task_exit` is its terminating tail.  The ghost field `alive` counts the
number of background task threads currently alive (incremented where the source
calls xTaskCreatePinnedToCore successfully, decremented at each vTaskDelete).
The `act` field of a `write` event is a ghost annotation recording the value of
the `activated` flag at the moment `digitalWrite` is invoked.
-/

namespace GLedModel

/-- Arduino line levels, HIGH = true and LOW = false. -/
def HIGH : Bool := true

/-- Arduino line levels, HIGH = true and LOW = false. -/
def LOW : Bool := false

/-- switching logic selection type (GLed.h line 53). -/
inductive gled_switching_logic_t where
  | LOW_IS_ACTIVE
  | HIGH_IS_ACTIVE
deriving DecidableEq, Repr

open gled_switching_logic_t

/-- GLed.h line 58: syncron flash truncation bound. -/
def MAX_FLASH : Nat := 100

/-- 2^64, the modulus of the C++ type uint64_t of flash_count. -/
def UINT64_MOD : Nat := 2 ^ 64

/-- GLed.h line 59: FLASH_FOR_EVER = (uint64_t)(~0) = 2^64 - 1. -/
def FLASH_FOR_EVER : Nat := 2 ^ 64 - 1

/-- FreeRTOS success value returned by xTaskCreatePinnedToCore. -/
def pdPASS : Int := 1

/-- FreeRTOS failure value of xTaskCreatePinnedToCore on resource exhaustion. -/
def errCOULD_NOT_ALLOCATE_REQUIRED_MEMORY : Int := -1

/-- Observable effects on the hardware / RTOS. `write pin level act` is a
digitalWrite(pin, level); `act` is a ghost annotation: the value of the
`activated` member at the moment of the write. `delay ms` covers both
delay(ms) and vTaskDelay of the same duration. -/
inductive Event where
  | pinModeOutput (pin : Int)
  | write (pin : Int) (level : Bool) (act : Bool)
  | delay (ms : Nat)
deriving DecidableEq, Repr

/-- The GLed object state (private members of class GLed, GLed.h lines 260-268).
`flash_task_handle = some b` models a non-null TaskHandle_t whose task captured
`b` as its `start_lightening` value (task_flash, GLed.cpp line 183); `none`
models nullptr.  `alive` is a ghost counter of live background task threads. -/
structure GLed where
  pin : Int
  state : Int
  activated : Bool
  on_is_high_level : Bool
  flash_count : Nat
  flash_dt_on : Nat
  flash_dt_off : Nat
  flash_task_handle : Option Bool
  alive : Nat
deriving DecidableEq, Repr

/-- The default constructor GLed() (GLed.h lines 67-76): built-in LED pin 2,
negative switching logic. -/
def GLed.mkDefault : GLed :=
  { pin := 2, state := 0, activated := false, on_is_high_level := false,
    flash_count := 0, flash_dt_on := 0, flash_dt_off := 0,
    flash_task_handle := none, alive := 0 }

/-- GLed(int a_pin) (GLed.h lines 85-95): positive logic. -/
def GLed.mkPin (a_pin : Int) : GLed :=
  { pin := a_pin, state := 0, activated := false, on_is_high_level := true,
    flash_count := 0, flash_dt_on := 0, flash_dt_off := 0,
    flash_task_handle := none, alive := 0 }

/-- bool GLed::is_on() const (GLed.h lines 187-190): state != 0. -/
def GLed.is_on (s : GLed) : Bool := s.state != 0

/-- void GLed::set_logic_mode(gled_switching_logic_t) (GLed.cpp lines 61-70). -/
def GLed.set_logic_mode (s : GLed) (logic : gled_switching_logic_t) : GLed :=
  match logic with
  | LOW_IS_ACTIVE => { s with on_is_high_level := false }
  | HIGH_IS_ACTIVE => { s with on_is_high_level := true }

/-- void GLed::set_logic_mode(bool) (GLed.cpp lines 72-75). -/
def GLed.set_logic_mode_bool (s : GLed) (a_on_is_high_level : Bool) : GLed :=
  { s with on_is_high_level := a_on_is_high_level }

/-- void GLed::on() (GLed.cpp lines 78-84): guarded by `activated`; sets
state = 1 and writes `on_is_high_level ? HIGH : LOW`. -/
def GLed.on (s : GLed) : GLed × List Event :=
  if s.activated then
    ({ s with state := 1 },
     [Event.write s.pin (if s.on_is_high_level then HIGH else LOW) s.activated])
  else (s, [])

/-- void GLed::off() (GLed.cpp lines 86-92): guarded by `activated`; sets
state = 0 and writes `on_is_high_level ? LOW : HIGH`. -/
def GLed.off (s : GLed) : GLed × List Event :=
  if s.activated then
    ({ s with state := 0 },
     [Event.write s.pin (if s.on_is_high_level then LOW else HIGH) s.activated])
  else (s, [])

/-- void GLed::switch_lightening(bool mode) (GLed.h line 181). -/
def GLed.switch_lightening (s : GLed) (mode : Bool) : GLed × List Event :=
  if mode then s.on else s.off

/-- void GLed::toggle() (GLed.cpp lines 94-100). -/
def GLed.toggle (s : GLed) : GLed × List Event :=
  if s.is_on then s.off else s.on

/-- void GLed::begin() (GLed.cpp lines 42-48): pinMode(pin, OUTPUT);
activated = true; off(). -/
def GLed.begin (s : GLed) : GLed × List Event :=
  let s1 := { s with activated := true }
  let r := s1.off
  (r.1, Event.pinModeOutput s.pin :: r.2)

/-- void GLed::end() (GLed.cpp lines 50-59): vTaskDelete the flash task if its
handle is non-null, clear the handle, off(), activated = false.  (`end` is a
Lean keyword, hence the underscore.) -/
def GLed.end_ (s : GLed) : GLed × List Event :=
  let s1 : GLed :=
    { s with
      alive := if s.flash_task_handle.isSome then s.alive - 1 else s.alive,
      flash_task_handle := none }
  let r := s1.off
  ({ r.1 with activated := false }, r.2)

/-- void GLed::deactivate() (GLed.h line 137): alias for end(). -/
def GLed.deactivate (s : GLed) : GLed × List Event := s.end_

/-- The loop `for(unsigned i = 0; i < count; i++)` inside GLed::flash
(GLed.cpp lines 111-117), with `rem = count - i` iterations left as structural
fuel.  Each iteration: if i > 0 then delay(dt_off); on(); delay(dt_on); off(). -/
def flashIter (dt_on dt_off : Nat) (i : Nat) (rem : Nat) (s : GLed) :
    GLed × List Event :=
  match rem with
  | 0 => (s, [])
  | r + 1 =>
    let pre : List Event := if 0 < i then [Event.delay dt_off] else []
    let r1 := s.on
    let r2 := r1.1.off
    let r3 := flashIter dt_on dt_off (i + 1) r r2.1
    (r3.1, pre ++ r1.2 ++ Event.delay dt_on :: r2.2 ++ r3.2)

/-- void GLed::flash(unsigned count, unsigned dt_on, unsigned dt_off)
(GLed.cpp lines 102-121). -/
def GLed.flash (s : GLed) (count dt_on dt_off : Nat) : GLed × List Event :=
  if s.activated then
    let led_mode := s.is_on
    let count2 := if count > MAX_FLASH then MAX_FLASH else count
    let r1 := flashIter dt_on dt_off 0 count2 s
    let r2 := r1.1.switch_lightening led_mode
    (r2.1, r1.2 ++ r2.2)
  else (s, [])

/-- void GLed::async_flash_set_time_regime (GLed.cpp lines 123-129):
flash_dt_on = dt_on; flash_dt_off = dt_off == 0 ? dt_on : dt_off. -/
def GLed.async_flash_set_time_regime (s : GLed) (dt_on dt_off : Nat) : GLed :=
  { s with flash_dt_on := dt_on,
           flash_dt_off := if dt_off = 0 then dt_on else dt_off }

/-- int GLed::async_flash(uint64_t count, unsigned dt_on, unsigned dt_off,
int core_num) (GLed.cpp lines 131-175).  `spawn_ok` models the outcome of
xTaskCreatePinnedToCore: on success it returns pdPASS and stores a non-null
handle, on failure it returns an error code and the handle stays null.  The
spawned task captures is_on() as its start_lightening (GLed.cpp line 183). -/
def GLed.async_flash (s : GLed) (count : Nat) (dt_on dt_off : Nat)
    (core_num : Int) (spawn_ok : Bool) : GLed × Int :=
  if s.flash_task_handle.isSome then
    (({ s with flash_count := count }).async_flash_set_time_regime dt_on dt_off, 0)
  else
    let s1 := ({ s with flash_count := count }).async_flash_set_time_regime dt_on dt_off
    if s1.activated then
      if spawn_ok then
        ({ s1 with flash_task_handle := some s1.is_on, alive := s1.alive + 1 },
         pdPASS)
      else (s1, errCOULD_NOT_ALLOCATE_REQUIRED_MEMORY)
    else (s1, 0)

/-- One iteration of the while loop of task_flash (GLed.cpp lines 186-197),
enabled while the task thread is alive and `flash_count && activated` holds:
on(); vTaskDelay(flash_dt_on); off(); vTaskDelay(flash_dt_off); then the
guarded uint64 decrement `if (flash_count > 0) flash_count = flash_count - 1`
(machine subtraction modulo 2^64). -/
def GLed.task_cycle (s : GLed) : GLed × List Event :=
  match s.flash_task_handle with
  | none => (s, [])
  | some _ =>
    if s.flash_count ≠ 0 ∧ s.activated then
      let r1 := s.on
      let r2 := r1.1.off
      let s3 :=
        if r2.1.flash_count > 0 then
          { r2.1 with
            flash_count := (r2.1.flash_count + (UINT64_MOD - 1)) % UINT64_MOD }
        else r2.1
      (s3, r1.2 ++ Event.delay r1.1.flash_dt_on :: r2.2 ++
             [Event.delay r2.1.flash_dt_off])
    else (s, [])

/-- The tail of task_flash after its loop exits (GLed.cpp lines 199-203),
enabled when the loop condition `flash_count && activated` fails:
switch_lightening(start_lightening); flash_task_handle = nullptr;
vTaskDelete(NULL). -/
def GLed.task_exit (s : GLed) : GLed × List Event :=
  match s.flash_task_handle with
  | none => (s, [])
  | some start_lightening =>
    if s.flash_count ≠ 0 ∧ s.activated then (s, [])
    else
      let r := s.switch_lightening start_lightening
      ({ r.1 with flash_task_handle := none, alive := r.1.alive - 1 }, r.2)

/-- void GLed::reconnect_to_pin(int a_pin, gled_switching_logic_t logic)
(GLed.cpp lines 206-214): end(); state = 0; activated = 0;
set_logic_mode(logic); pin = a_pin. -/
def GLed.reconnect_to_pin (s : GLed) (a_pin : Int)
    (logic : gled_switching_logic_t) : GLed × List Event :=
  let r := s.end_
  let s2 := { r.1 with state := 0, activated := false }
  let s3 := s2.set_logic_mode logic
  ({ s3 with pin := a_pin }, r.2)

/-- One caller- or task-side operation on a GLed object, used to reason about
arbitrary interleavings of the public interface with the background task. -/
inductive Op where
  | opBegin
  | opEnd
  | opOn
  | opOff
  | opToggle
  | opSetLogicMode (l : gled_switching_logic_t)
  | opSetLogicModeBool (b : Bool)
  | opFlash (count dt_on dt_off : Nat)
  | opSetTimeRegime (dt_on dt_off : Nat)
  | opAsyncFlash (count dt_on dt_off : Nat) (core : Int) (ok : Bool)
  | opTaskCycle
  | opTaskExit
  | opReconnect (p : Int) (l : gled_switching_logic_t)
deriving DecidableEq, Repr

/-- Small-step semantics: apply one operation, returning the new object state
and the emitted event trace. -/
def step (s : GLed) : Op → GLed × List Event
  | Op.opBegin => s.begin
  | Op.opEnd => s.end_
  | Op.opOn => s.on
  | Op.opOff => s.off
  | Op.opToggle => s.toggle
  | Op.opSetLogicMode l => (s.set_logic_mode l, [])
  | Op.opSetLogicModeBool b => (s.set_logic_mode_bool b, [])
  | Op.opFlash c a b => s.flash c a b
  | Op.opSetTimeRegime a b => (s.async_flash_set_time_regime a b, [])
  | Op.opAsyncFlash c a b core ok => ((s.async_flash c a b core ok).1, [])
  | Op.opTaskCycle => s.task_cycle
  | Op.opTaskExit => s.task_exit
  | Op.opReconnect p l => s.reconnect_to_pin p l

/-- Run a sequence of operations, concatenating the traces. -/
def runOps (s : GLed) : List Op → GLed × List Event
  | [] => (s, [])
  | op :: ops =>
    let r1 := step s op
    let r2 := runOps r1.1 ops
    (r2.1, r1.2 ++ r2.2)

/-- All object states visited while running a sequence of operations
(the initial state included). -/
def runStates (s : GLed) : List Op → List GLed
  | [] => [s]
  | op :: ops => s :: runStates (step s op).1 ops

/-- The level handed to digitalWrite for a logical on/off intent, read off the
write expressions of GLed::on (GLed.cpp line 82, `on_is_high_level ? HIGH :
LOW`) and GLed::off (line 90, `on_is_high_level ? LOW : HIGH`). -/
def physical_level (logical_on : Bool) (on_is_high_level : Bool) : Bool :=
  if logical_on then (if on_is_high_level then HIGH else LOW)
  else (if on_is_high_level then LOW else HIGH)

/-- Every write event of the trace carries activation annotation `true`. -/
def writesOk (t : List Event) : Bool :=
  t.all fun e =>
    match e with
    | Event.write _ _ a => a
    | _ => true

/-- Total milliseconds of blocking delay in a trace. -/
def delaySum (t : List Event) : Nat :=
  (t.map fun e =>
    match e with
    | Event.delay ms => ms
    | _ => 0).sum

/-- Number of physical level writes in a trace. -/
def writeCount (t : List Event) : Nat :=
  (t.filter fun e =>
    match e with
    | Event.write _ _ _ => true
    | _ => false).length

/-- The task-accounting invariant: the ghost count of live background task
threads is 1 exactly when the task handle is non-null, 0 when it is null. -/
def TaskInv (s : GLed) : Prop :=
  s.alive = if s.flash_task_handle.isSome then 1 else 0

instance (s : GLed) : Decidable (TaskInv s) := by
  unfold TaskInv; infer_instance

/-- The object state after n iterations of the task_flash while loop. -/
def task_cycle_iter (s : GLed) : Nat → GLed
  | 0 => s
  | n + 1 => task_cycle_iter (s.task_cycle).1 n

/-- Demo object: the default-constructed GLed after begin(). -/
def demoActivated : GLed := (GLed.mkDefault.begin).1

/-- Demo object: an activated GLed with a live background flash task. -/
def demoRunning : GLed :=
  { demoActivated with
    flash_count := 5, flash_dt_on := 10, flash_dt_off := 20,
    flash_task_handle := some false, alive := 1 }

/-- Demo object: an activated GLed with a live task counting FLASH_FOR_EVER. -/
def demoForever : GLed :=
  { demoActivated with
    flash_count := FLASH_FOR_EVER, flash_dt_on := 10,
    flash_dt_off := 20, flash_task_handle := some false, alive := 1 }

@[simp] theorem on_fst_activated (s : GLed) : (s.on).1.activated = s.activated := by
  unfold GLed.on; split <;> rfl

@[simp] theorem on_fst_pin (s : GLed) : (s.on).1.pin = s.pin := by
  unfold GLed.on; split <;> rfl

@[simp] theorem on_fst_hi (s : GLed) : (s.on).1.on_is_high_level = s.on_is_high_level := by
  unfold GLed.on; split <;> rfl

@[simp] theorem on_fst_count (s : GLed) : (s.on).1.flash_count = s.flash_count := by
  unfold GLed.on; split <;> rfl

@[simp] theorem on_fst_dt_on (s : GLed) : (s.on).1.flash_dt_on = s.flash_dt_on := by
  unfold GLed.on; split <;> rfl

@[simp] theorem on_fst_dt_off (s : GLed) : (s.on).1.flash_dt_off = s.flash_dt_off := by
  unfold GLed.on; split <;> rfl

@[simp] theorem on_fst_handle (s : GLed) :
    (s.on).1.flash_task_handle = s.flash_task_handle := by
  unfold GLed.on; split <;> rfl

@[simp] theorem on_fst_alive (s : GLed) : (s.on).1.alive = s.alive := by
  unfold GLed.on; split <;> rfl

@[simp] theorem off_fst_activated (s : GLed) : (s.off).1.activated = s.activated := by
  unfold GLed.off; split <;> rfl

@[simp] theorem off_fst_pin (s : GLed) : (s.off).1.pin = s.pin := by
  unfold GLed.off; split <;> rfl

@[simp] theorem off_fst_hi (s : GLed) : (s.off).1.on_is_high_level = s.on_is_high_level := by
  unfold GLed.off; split <;> rfl

@[simp] theorem off_fst_count (s : GLed) : (s.off).1.flash_count = s.flash_count := by
  unfold GLed.off; split <;> rfl

@[simp] theorem off_fst_dt_on (s : GLed) : (s.off).1.flash_dt_on = s.flash_dt_on := by
  unfold GLed.off; split <;> rfl

@[simp] theorem off_fst_dt_off (s : GLed) : (s.off).1.flash_dt_off = s.flash_dt_off := by
  unfold GLed.off; split <;> rfl

@[simp] theorem off_fst_handle (s : GLed) :
    (s.off).1.flash_task_handle = s.flash_task_handle := by
  unfold GLed.off; split <;> rfl

@[simp] theorem off_fst_alive (s : GLed) : (s.off).1.alive = s.alive := by
  unfold GLed.off; split <;> rfl

@[simp] theorem switch_fst_activated (s : GLed) (m : Bool) :
    (s.switch_lightening m).1.activated = s.activated := by
  unfold GLed.switch_lightening; split <;> simp

@[simp] theorem switch_fst_handle (s : GLed) (m : Bool) :
    (s.switch_lightening m).1.flash_task_handle = s.flash_task_handle := by
  unfold GLed.switch_lightening; split <;> simp

@[simp] theorem switch_fst_alive (s : GLed) (m : Bool) :
    (s.switch_lightening m).1.alive = s.alive := by
  unfold GLed.switch_lightening; split <;> simp

@[simp] theorem writesOk_append (t1 t2 : List Event) :
    writesOk (t1 ++ t2) = (writesOk t1 && writesOk t2) := by
  unfold writesOk; exact List.all_append

@[simp] theorem writesOk_nil : writesOk [] = true := rfl

@[simp] theorem delaySum_append (t1 t2 : List Event) :
    delaySum (t1 ++ t2) = delaySum t1 + delaySum t2 := by
  unfold delaySum; rw [List.map_append, List.sum_append]

@[simp] theorem delaySum_nil : delaySum [] = 0 := rfl

theorem writesOk_on (s : GLed) : writesOk (s.on).2 = true := by
  unfold GLed.on; split <;> simp_all [writesOk]

theorem writesOk_off (s : GLed) : writesOk (s.off).2 = true := by
  unfold GLed.off; split <;> simp_all [writesOk]

theorem writesOk_switch (s : GLed) (m : Bool) :
    writesOk (s.switch_lightening m).2 = true := by
  unfold GLed.switch_lightening
  split
  · exact writesOk_on s
  · exact writesOk_off s

theorem delaySum_on (s : GLed) : delaySum (s.on).2 = 0 := by
  unfold GLed.on; split <;> simp [delaySum]

theorem delaySum_off (s : GLed) : delaySum (s.off).2 = 0 := by
  unfold GLed.off; split <;> simp [delaySum]

theorem delaySum_switch (s : GLed) (m : Bool) :
    delaySum (s.switch_lightening m).2 = 0 := by
  unfold GLed.switch_lightening
  split
  · exact delaySum_on s
  · exact delaySum_off s

/-- Claim C5: for both switching polarities and both logical intents, the level
handed to digitalWrite matches the truth table: with on_is_high_level (active
high) the level equals the logical intent, with active low it is its negation;
physical_level is a pure total function on booleans. -/
theorem physical_level_truth_table :
    (∀ (s : GLed) (lo : Bool), s.activated = true →
      (if lo then s.on else s.off).2
        = [Event.write s.pin (physical_level lo s.on_is_high_level) true])
    ∧ (∀ lo : Bool, physical_level lo true = lo ∧ physical_level lo false = !lo) := by
  constructor
  · intro s lo h
    cases lo <;> simp [GLed.on, GLed.off, physical_level, HIGH, LOW, h]
  · decide

/-- Witness for C5 at a concrete activated LED on pin 5, positive logic,
logical intent on. -/
theorem physical_level_truth_table_witness :
    (({ GLed.mkPin 5 with activated := true } : GLed).on).2
      = [Event.write 5 (physical_level true true) true] := by
  have h := physical_level_truth_table.1
    ({ GLed.mkPin 5 with activated := true } : GLed) true rfl
  simpa [GLed.mkPin] using h

/-- Claim C10: on a non-activated GLed, on(), off() and toggle() leave the
whole object state (in particular the `state` member read by is_on) unchanged
and emit no event. -/
theorem inactive_ops_leave_state_unchanged :
    ∀ s : GLed, s.activated = false →
      s.on = (s, []) ∧ s.off = (s, []) ∧ s.toggle = (s, []) := by
  intro s h
  refine ⟨?_, ?_, ?_⟩ <;> simp [GLed.on, GLed.off, GLed.toggle, h]

/-- Witness for C10 at the default-constructed (not activated) GLed. -/
theorem inactive_ops_leave_state_unchanged_witness :
    GLed.mkDefault.on = (GLed.mkDefault, [])
    ∧ GLed.mkDefault.off = (GLed.mkDefault, [])
    ∧ GLed.mkDefault.toggle = (GLed.mkDefault, []) :=
  inactive_ops_leave_state_unchanged GLed.mkDefault rfl

/-- Claim C3: async_flash on a GLed that is not activated and has no running
task stores the blink parameters (count and the on/off regime), creates no
task (handle stays null, the live-task count is unchanged), and returns 0,
which is distinct from the task-creation success value pdPASS. -/
theorem async_flash_not_activated_stores_and_returns_zero :
    ∀ (s : GLed) (c a b : Nat) (core : Int) (ok : Bool),
      s.activated = false → s.flash_task_handle = none →
      (s.async_flash c a b core ok).2 = 0
      ∧ (s.async_flash c a b core ok).1.flash_task_handle = none
      ∧ (s.async_flash c a b core ok).1.alive = s.alive
      ∧ (s.async_flash c a b core ok).1.flash_count = c
      ∧ (s.async_flash c a b core ok).1.flash_dt_on = a
      ∧ (s.async_flash c a b core ok).1.flash_dt_off = (if b = 0 then a else b)
      ∧ (s.async_flash c a b core ok).2 ≠ pdPASS := by
  intro s c a b core ok hact hh
  simp [GLed.async_flash, GLed.async_flash_set_time_regime, hact, hh, pdPASS]

/-- Witness for C3 at the default-constructed GLed with count 9 and a zero
off-time (which the regime setter mirrors from the on-time). -/
theorem async_flash_not_activated_witness :
    (GLed.mkDefault.async_flash 9 10 0 0 true).2 = 0
    ∧ (GLed.mkDefault.async_flash 9 10 0 0 true).1.flash_task_handle = none
    ∧ (GLed.mkDefault.async_flash 9 10 0 0 true).1.alive = GLed.mkDefault.alive
    ∧ (GLed.mkDefault.async_flash 9 10 0 0 true).1.flash_count = 9
    ∧ (GLed.mkDefault.async_flash 9 10 0 0 true).1.flash_dt_on = 10
    ∧ (GLed.mkDefault.async_flash 9 10 0 0 true).1.flash_dt_off
        = (if (0 : Nat) = 0 then 10 else 0)
    ∧ (GLed.mkDefault.async_flash 9 10 0 0 true).2 ≠ pdPASS :=
  async_flash_not_activated_stores_and_returns_zero GLed.mkDefault 9 10 0 0 true rfl rfl

/-- Claim C9: async_flash returns 0 both when it retargets an already-running
task and when the LED is not activated (dormant request), so the two cases are
indistinguishable by return value; pdPASS (which is nonzero) is returned
exactly when a task is actually created. -/
theorem async_flash_return_value_ambiguity :
    (∀ (s : GLed) (c a b : Nat) (core : Int) (ok : Bool),
      s.flash_task_handle.isSome = true → (s.async_flash c a b core ok).2 = 0)
    ∧ (∀ (s : GLed) (c a b : Nat) (core : Int) (ok : Bool),
      s.activated = false → s.flash_task_handle = none →
      (s.async_flash c a b core ok).2 = 0)
    ∧ (∀ (s : GLed) (c a b : Nat) (core : Int) (ok : Bool),
      (s.async_flash c a b core ok).2 = pdPASS →
        ok = true ∧ s.flash_task_handle = none ∧ s.activated = true
        ∧ (s.async_flash c a b core ok).1.flash_task_handle.isSome = true
        ∧ (s.async_flash c a b core ok).1.alive = s.alive + 1)
    ∧ pdPASS ≠ 0 := by
  refine ⟨?_, ?_, ?_, by simp [pdPASS]⟩
  · intro s c a b core ok hh
    simp [GLed.async_flash, hh]
  · intro s c a b core ok hact hh
    simp [GLed.async_flash, GLed.async_flash_set_time_regime, hact, hh]
  · intro s c a b core ok h
    unfold GLed.async_flash at h
    by_cases hh : s.flash_task_handle.isSome = true
    · simp [hh, pdPASS] at h
    · rw [if_neg (by simp [hh])] at h
      have hh : s.flash_task_handle = none := by
        cases h' : s.flash_task_handle with
        | none => rfl
        | some v => rw [h'] at hh; simp at hh
      by_cases hact : s.activated = true
      · by_cases hok : ok = true
        · refine ⟨hok, hh, hact, ?_, ?_⟩ <;>
            simp [GLed.async_flash, GLed.async_flash_set_time_regime, hh, hact, hok]
        · simp only [Bool.not_eq_true] at hok
          simp [GLed.async_flash_set_time_regime, hact, hok, pdPASS,
            errCOULD_NOT_ALLOCATE_REQUIRED_MEMORY] at h
      · simp only [Bool.not_eq_true] at hact
        simp [GLed.async_flash_set_time_regime, hact, pdPASS] at h

/-- Witness for C9: the three implications at concrete inputs — a running
task (retarget returns 0), a dormant not-activated LED (returns 0), and a
successful spawn on an activated LED (returns pdPASS and creates the task). -/
theorem async_flash_return_value_ambiguity_witness :
    (demoRunning.async_flash 4 5 6 0 true).2 = 0
    ∧ (GLed.mkDefault.async_flash 4 5 6 0 true).2 = 0
    ∧ (true = true ∧ demoActivated.flash_task_handle = none
        ∧ demoActivated.activated = true
        ∧ (demoActivated.async_flash 4 5 6 0 true).1.flash_task_handle.isSome = true
        ∧ (demoActivated.async_flash 4 5 6 0 true).1.alive = demoActivated.alive + 1) :=
  ⟨async_flash_return_value_ambiguity.1 demoRunning 4 5 6 0 true rfl,
   async_flash_return_value_ambiguity.2.1 GLed.mkDefault 4 5 6 0 true rfl rfl,
   async_flash_return_value_ambiguity.2.2.1 demoActivated 4 5 6 0 true rfl⟩

@[simp] theorem writesOk_cons_pinMode (p : Int) (t : List Event) :
    writesOk (Event.pinModeOutput p :: t) = writesOk t := rfl

@[simp] theorem writesOk_cons_delay (n : Nat) (t : List Event) :
    writesOk (Event.delay n :: t) = writesOk t := rfl

@[simp] theorem writesOk_cons_write (p : Int) (l a : Bool) (t : List Event) :
    writesOk (Event.write p l a :: t) = (a && writesOk t) := rfl

@[simp] theorem delaySum_cons_pinMode (p : Int) (t : List Event) :
    delaySum (Event.pinModeOutput p :: t) = delaySum t := by
  simp [delaySum]

@[simp] theorem delaySum_cons_delay (n : Nat) (t : List Event) :
    delaySum (Event.delay n :: t) = n + delaySum t := by
  simp [delaySum]

@[simp] theorem delaySum_cons_write (p : Int) (l a : Bool) (t : List Event) :
    delaySum (Event.write p l a :: t) = delaySum t := by
  simp [delaySum]

theorem writesOk_flashIter (a b : Nat) :
    ∀ (rem i : Nat) (s : GLed), writesOk (flashIter a b i rem s).2 = true := by
  intro rem
  induction rem with
  | zero => intro i s; rfl
  | succ r ih =>
    intro i s
    have hpre : writesOk (if 0 < i then [Event.delay b] else []) = true := by
      split <;> rfl
    simp only [flashIter, writesOk_append, writesOk_cons_delay, hpre,
      writesOk_on, writesOk_off, ih, Bool.and_self, Bool.true_and]

theorem writesOk_step (s : GLed) (op : Op) : writesOk (step s op).2 = true := by
  cases op with
  | opBegin =>
    show writesOk (s.begin).2 = true
    simp only [GLed.begin, writesOk_cons_pinMode, writesOk_off]
  | opEnd =>
    show writesOk (s.end_).2 = true
    unfold GLed.end_
    exact writesOk_off _
  | opOn => exact writesOk_on s
  | opOff => exact writesOk_off s
  | opToggle =>
    show writesOk (s.toggle).2 = true
    unfold GLed.toggle
    split
    · exact writesOk_off s
    · exact writesOk_on s
  | opSetLogicMode l => rfl
  | opSetLogicModeBool b => rfl
  | opFlash c a b =>
    show writesOk (s.flash c a b).2 = true
    unfold GLed.flash
    split
    · rw [writesOk_append, Bool.and_eq_true]
      exact ⟨writesOk_flashIter a b _ 0 s, writesOk_switch _ _⟩
    · rfl
  | opSetTimeRegime a b => rfl
  | opAsyncFlash c a b core ok => rfl
  | opTaskCycle =>
    show writesOk (s.task_cycle).2 = true
    unfold GLed.task_cycle
    cases s.flash_task_handle with
    | none => rfl
    | some v =>
      simp only []
      split
      · simp only [writesOk_append, writesOk_cons_delay, writesOk_on,
          writesOk_off, writesOk_nil, Bool.and_self]
      · rfl
  | opTaskExit =>
    show writesOk (s.task_exit).2 = true
    unfold GLed.task_exit
    cases s.flash_task_handle with
    | none => rfl
    | some v =>
      simp only []
      split
      · rfl
      · exact writesOk_switch s v
  | opReconnect p l =>
    show writesOk (s.reconnect_to_pin p l).2 = true
    unfold GLed.reconnect_to_pin GLed.end_
    exact writesOk_off _

theorem writesOk_runOps : ∀ (ops : List Op) (s : GLed),
    writesOk (runOps s ops).2 = true := by
  intro ops
  induction ops with
  | nil => intro s; rfl
  | cons op rest ih =>
    intro s
    unfold runOps
    rw [writesOk_append, Bool.and_eq_true]
    exact ⟨writesOk_step s op, ih (step s op).1⟩

/-- Claim C4: along every sequence of operations (interleaving caller calls
with background-task steps), a digitalWrite is issued only while the
`activated` member is true; in particular end()/deactivate() followed by on()
emits no write at all. -/
theorem write_only_when_activated :
    (∀ (s : GLed) (ops : List Op), writesOk (runOps s ops).2 = true)
    ∧ (∀ s : GLed, (step (s.end_).1 Op.opOn).2 = []) := by
  constructor
  · intro s ops; exact writesOk_runOps ops s
  · intro s
    show ((s.end_).1.on).2 = []
    unfold GLed.on
    rw [if_neg]
    unfold GLed.end_
    simp

theorem flashIter_fst_handle (a b : Nat) : ∀ (rem i : Nat) (s : GLed),
    (flashIter a b i rem s).1.flash_task_handle = s.flash_task_handle := by
  intro rem
  induction rem with
  | zero => intro i s; rfl
  | succ r ih =>
    intro i s
    simp only [flashIter, ih, off_fst_handle, on_fst_handle]

theorem flashIter_fst_alive (a b : Nat) : ∀ (rem i : Nat) (s : GLed),
    (flashIter a b i rem s).1.alive = s.alive := by
  intro rem
  induction rem with
  | zero => intro i s; rfl
  | succ r ih =>
    intro i s
    simp only [flashIter, ih, off_fst_alive, on_fst_alive]

theorem TaskInv_step (s : GLed) (op : Op) (h : TaskInv s) :
    TaskInv (step s op).1 := by
  obtain ⟨p, st, act, hi, fc, don, doff, fth, al⟩ := s
  unfold TaskInv at h ⊢
  cases op with
  | opBegin => cases act <;> cases fth <;> simp_all [step, GLed.begin, GLed.off]
  | opEnd => cases act <;> cases fth <;> simp_all [step, GLed.end_, GLed.off]
  | opOn => cases act <;> cases fth <;> simp_all [step, GLed.on]
  | opOff => cases act <;> cases fth <;> simp_all [step, GLed.off]
  | opToggle =>
    cases act <;> cases fth <;>
      simp_all [step, GLed.toggle, GLed.on, GLed.off] <;> split <;> simp
  | opSetLogicMode l =>
    cases l <;> cases fth <;> simp_all [step, GLed.set_logic_mode]
  | opSetLogicModeBool b => cases fth <;> simp_all [step, GLed.set_logic_mode_bool]
  | opFlash c a b =>
    cases act <;> cases fth <;>
      simp_all [step, GLed.flash, flashIter_fst_alive, flashIter_fst_handle]
  | opSetTimeRegime a b =>
    cases fth <;> simp_all [step, GLed.async_flash_set_time_regime]
  | opAsyncFlash c a b core ok =>
    cases act <;> cases fth <;> cases ok <;>
      simp_all [step, GLed.async_flash, GLed.async_flash_set_time_regime]
  | opTaskCycle =>
    cases fth with
    | none => exact h
    | some v =>
      simp at h
      cases act with
      | false => simpa [step, GLed.task_cycle] using h
      | true =>
        rcases Nat.eq_zero_or_pos fc with hfc | hfc
        · subst hfc
          simpa [step, GLed.task_cycle] using h
        · simp [step, GLed.task_cycle, GLed.on, GLed.off,
            Nat.pos_iff_ne_zero.mp hfc, hfc, h]
  | opTaskExit =>
    cases fth with
    | none => exact h
    | some v =>
      simp at h
      cases act with
      | false =>
        cases v <;>
          simp [step, GLed.task_exit, GLed.switch_lightening, GLed.on, GLed.off, h]
      | true =>
        rcases Nat.eq_zero_or_pos fc with hfc | hfc
        · subst hfc
          cases v <;>
            simp [step, GLed.task_exit, GLed.switch_lightening, GLed.on, GLed.off, h]
        · simp [step, GLed.task_exit, Nat.pos_iff_ne_zero.mp hfc, hfc, h]
  | opReconnect q l =>
    cases act <;> cases fth <;> cases l <;>
      simp_all [step, GLed.reconnect_to_pin, GLed.end_, GLed.off, GLed.set_logic_mode]


theorem runStates_alive_le_one : ∀ (ops : List Op) (s : GLed), TaskInv s →
    ∀ t ∈ runStates s ops, t.alive ≤ 1 := by
  intro ops
  induction ops with
  | nil =>
    intro s h t ht
    simp [runStates] at ht
    subst ht
    unfold TaskInv at h
    rw [h]
    split <;> omega
  | cons op rest ih =>
    intro s h t ht
    simp only [runStates, List.mem_cons] at ht
    rcases ht with rfl | ht
    · unfold TaskInv at h
      rw [h]
      split <;> omega
    · exact ih (step s op).1 (TaskInv_step s op h) t ht

/-- Claim C1: calling async_flash while the task handle is non-null does not
spawn a second task — it only overwrites flash_count and the on/off durations
in place — and the one-live-task accounting invariant is preserved by every
operation, so along any run from a state satisfying it at most one background
task is alive at every point. -/
theorem async_flash_retarget_single_task :
    (∀ (s : GLed) (c a b : Nat) (core : Int) (ok : Bool),
      s.flash_task_handle.isSome = true →
        (s.async_flash c a b core ok).1.flash_task_handle = s.flash_task_handle
        ∧ (s.async_flash c a b core ok).1.alive = s.alive
        ∧ (s.async_flash c a b core ok).1.flash_count = c
        ∧ (s.async_flash c a b core ok).1.flash_dt_on = a
        ∧ (s.async_flash c a b core ok).1.flash_dt_off = (if b = 0 then a else b))
    ∧ (∀ (s : GLed) (op : Op), TaskInv s → TaskInv (step s op).1)
    ∧ (∀ (s : GLed) (ops : List Op), TaskInv s →
        ∀ t ∈ runStates s ops, t.alive ≤ 1) := by
  refine ⟨?_, fun s op h => TaskInv_step s op h,
    fun s ops h t ht => runStates_alive_le_one ops s h t ht⟩
  intro s c a b core ok hh
  simp [GLed.async_flash, GLed.async_flash_set_time_regime, hh]

/-- Witness for C1 at a concrete running-task GLed: the retarget clause at
count 7, invariant preservation across an end() step, and the at-most-one-task
bound at the state reached by a task-exit step. -/
theorem async_flash_retarget_single_task_witness :
    ((demoRunning.async_flash 7 30 40 0 true).1.flash_task_handle
        = demoRunning.flash_task_handle
      ∧ (demoRunning.async_flash 7 30 40 0 true).1.alive = demoRunning.alive
      ∧ (demoRunning.async_flash 7 30 40 0 true).1.flash_count = 7
      ∧ (demoRunning.async_flash 7 30 40 0 true).1.flash_dt_on = 30
      ∧ (demoRunning.async_flash 7 30 40 0 true).1.flash_dt_off
          = (if (40 : Nat) = 0 then 30 else 40))
    ∧ TaskInv (step demoRunning Op.opEnd).1
    ∧ (step demoRunning Op.opTaskExit).1.alive ≤ 1 :=
  ⟨async_flash_retarget_single_task.1 demoRunning 7 30 40 0 true rfl,
   async_flash_retarget_single_task.2.1 demoRunning Op.opEnd (by decide),
   async_flash_retarget_single_task.2.2 demoRunning [Op.opTaskExit] (by decide)
     (step demoRunning Op.opTaskExit).1 (by decide)⟩

theorem UINT64_MOD_eq : UINT64_MOD = 18446744073709551616 := by
  norm_num [UINT64_MOD]

theorem FLASH_FOR_EVER_eq : FLASH_FOR_EVER = 18446744073709551615 := by
  norm_num [FLASH_FOR_EVER]

theorem task_cycle_fst_handle (s : GLed) :
    (s.task_cycle).1.flash_task_handle = s.flash_task_handle := by
  obtain ⟨p, st, act, hi, fc, don, doff, fth, al⟩ := s
  cases fth with
  | none => rfl
  | some v =>
    cases act with
    | false => simp [GLed.task_cycle]
    | true =>
      rcases Nat.eq_zero_or_pos fc with hfc | hfc
      · subst hfc; simp [GLed.task_cycle]
      · simp [GLed.task_cycle, GLed.on, GLed.off, Nat.pos_iff_ne_zero.mp hfc, hfc]

theorem task_cycle_fst_activated (s : GLed) :
    (s.task_cycle).1.activated = s.activated := by
  obtain ⟨p, st, act, hi, fc, don, doff, fth, al⟩ := s
  cases fth with
  | none => rfl
  | some v =>
    cases act with
    | false => simp [GLed.task_cycle]
    | true =>
      rcases Nat.eq_zero_or_pos fc with hfc | hfc
      · subst hfc; simp [GLed.task_cycle]
      · simp [GLed.task_cycle, GLed.on, GLed.off, Nat.pos_iff_ne_zero.mp hfc, hfc]

theorem task_cycle_fst_count (s : GLed) (hh : s.flash_task_handle.isSome = true)
    (ha : s.activated = true) (hlt : s.flash_count < UINT64_MOD) :
    (s.task_cycle).1.flash_count = s.flash_count - 1 := by
  obtain ⟨p, st, act, hi, fc, don, doff, fth, al⟩ := s
  cases fth with
  | none => simp at hh
  | some v =>
    simp only at ha
    subst ha
    rcases Nat.eq_zero_or_pos fc with hfc | hfc
    · subst hfc; simp [GLed.task_cycle]
    · simp only at hlt
      rw [UINT64_MOD_eq] at hlt
      simp [GLed.task_cycle, GLed.on, GLed.off, Nat.pos_iff_ne_zero.mp hfc, hfc,
        UINT64_MOD_eq]
      omega

theorem task_cycle_iter_count : ∀ (n : Nat) (s : GLed),
    s.flash_task_handle.isSome = true → s.activated = true →
    s.flash_count < UINT64_MOD →
    (task_cycle_iter s n).flash_count = s.flash_count - n := by
  intro n
  induction n with
  | zero => intro s _ _ _; rfl
  | succ m ih =>
    intro s hh ha hlt
    show (task_cycle_iter (s.task_cycle).1 m).flash_count = s.flash_count - (m + 1)
    have hh2 : (s.task_cycle).1.flash_task_handle.isSome = true := by
      rw [task_cycle_fst_handle]; exact hh
    have ha2 : (s.task_cycle).1.activated = true := by
      rw [task_cycle_fst_activated]; exact ha
    have hc : (s.task_cycle).1.flash_count = s.flash_count - 1 :=
      task_cycle_fst_count s hh ha hlt
    have hlt2 : (s.task_cycle).1.flash_count < UINT64_MOD := by
      rw [hc]; omega
    rw [ih (s.task_cycle).1 hh2 ha2 hlt2, hc]
    omega

/-- Counterexample to claim C2: a flash_count started at the FLASH_FOR_EVER
sentinel DOES reach zero after the finite number 2^64 - 1 of completed cycles,
because task_flash decrements every nonzero count, sentinel included. -/
theorem forever_sentinel_reaches_zero :
    (task_cycle_iter demoForever FLASH_FOR_EVER).flash_count = 0 := by
  have h := task_cycle_iter_count FLASH_FOR_EVER demoForever rfl rfl
    (by show FLASH_FOR_EVER < UINT64_MOD
        rw [UINT64_MOD_eq, FLASH_FOR_EVER_eq]; omega)
  rw [h]
  show FLASH_FOR_EVER - FLASH_FOR_EVER = 0
  omega

/-- Claim C2 (amended): in the background loop the decrement saturates at zero
and never wraps — after n cycles the count is exactly the initial count minus n
(truncated Nat subtraction) — but the FLASH_FOR_EVER sentinel is NOT
special-cased: it decrements each cycle like any other value, staying nonzero
only for fewer than 2^64 - 1 cycles. -/
theorem task_flash_count_saturating_decrement :
    ∀ (s : GLed) (n : Nat), s.flash_task_handle.isSome = true →
      s.activated = true → s.flash_count < UINT64_MOD →
      (task_cycle_iter s n).flash_count = s.flash_count - n
      ∧ (s.flash_count = FLASH_FOR_EVER → n < FLASH_FOR_EVER →
          (task_cycle_iter s n).flash_count ≠ 0) := by
  intro s n hh ha hlt
  have h := task_cycle_iter_count n s hh ha hlt
  refine ⟨h, fun hs hn => ?_⟩
  rw [h, hs]
  rw [FLASH_FOR_EVER_eq] at hn ⊢
  omega

/-- Witness for the amended C2 at the concrete running-forever LED with three
completed cycles. -/
theorem task_flash_count_saturating_decrement_witness :
    (task_cycle_iter demoForever 3).flash_count = demoForever.flash_count - 3
    ∧ (demoForever.flash_count = FLASH_FOR_EVER → 3 < FLASH_FOR_EVER →
        (task_cycle_iter demoForever 3).flash_count ≠ 0) :=
  task_flash_count_saturating_decrement demoForever 3 rfl rfl
    (by rw [UINT64_MOD_eq]; norm_num [demoForever, demoActivated, GLed.mkDefault,
      GLed.begin, GLed.off, FLASH_FOR_EVER])

theorem flashIter_delaySum_pos (a b : Nat) : ∀ (rem i : Nat) (s : GLed), 1 ≤ i →
    delaySum (flashIter a b i rem s).2 = rem * (a + b) := by
  intro rem
  induction rem with
  | zero => intro i s _; simp [flashIter]
  | succ r ih =>
    intro i s hi
    have hpos : 0 < i := hi
    simp only [flashIter, delaySum_append, delaySum_cons_delay, delaySum_on,
      delaySum_off, if_pos hpos, delaySum_cons_pinMode]
    rw [ih (i + 1) (s.on.1.off.1) (by omega)]
    simp only [delaySum_nil]
    ring

/-- Counterexample to claim C6: flash(3, 10, 20) on an activated LED incurs a
total blocking delay of 70 ms, not 3 * (10 + 20) = 90 ms — the leading
off-delay of each cycle is skipped for the first cycle. -/
theorem flash_total_delay_counterexample :
    delaySum (demoActivated.flash 3 10 20).2 = 70
    ∧ delaySum (demoActivated.flash 3 10 20).2 ≠ 3 * (10 + 20) := by
  constructor <;> decide

/-- Claim C6 (amended): for count ≥ 1 on an activated LED, the total blocking
delay of the synchronous flash is count * (dt_on + dt_off) - dt_off
milliseconds, with count first truncated to MAX_FLASH (matching the comment at
GLed.cpp line 104, not the header formula). -/
theorem flash_total_delay_formula :
    ∀ (s : GLed) (c a b : Nat), s.activated = true → 1 ≤ c →
      delaySum (s.flash c a b).2 = (min c MAX_FLASH) * (a + b) - b := by
  intro s c a b h hc
  unfold GLed.flash
  rw [if_pos h]
  simp only []
  have hc2 : (if c > MAX_FLASH then MAX_FLASH else c) = min c MAX_FLASH := by
    simp only [MAX_FLASH]
    split <;> omega
  rw [hc2]
  have h1 : 1 ≤ min c MAX_FLASH := by
    simp only [MAX_FLASH] at hc2 ⊢
    omega
  obtain ⟨r, hr⟩ : ∃ r, min c MAX_FLASH = r + 1 := ⟨min c MAX_FLASH - 1, by omega⟩
  rw [hr]
  have hrhs : (r + 1) * (a + b) - b = r * (a + b) + a := by
    rw [Nat.succ_mul, Nat.add_sub_assoc (Nat.le_add_left b a), Nat.add_sub_cancel]
  rw [hrhs]
  simp only [flashIter, delaySum_append, delaySum_cons_delay, delaySum_on,
    delaySum_off, delaySum_switch, Nat.lt_irrefl, if_false, delaySum_nil]
  rw [flashIter_delaySum_pos a b r 1 _ (le_refl 1)]
  ring

/-- Witness for the amended C6 at the concrete activated LED, count 3,
on-time 10 ms, off-time 20 ms. -/
theorem flash_total_delay_formula_witness :
    delaySum (demoActivated.flash 3 10 20).2 = (min 3 MAX_FLASH) * (10 + 20) - 20 :=
  flash_total_delay_formula demoActivated 3 10 20 rfl (by decide)

/-- Counterexample to claim C7: flash(0, 10, 20) on an activated LED does
perform a physical level write — the state-restore step rewrites the current
level — so "no physical level write occurs" fails. -/
theorem flash_zero_count_writes_counterexample :
    writeCount (demoActivated.flash 0 10 20).2 = 1
    ∧ writeCount (demoActivated.flash 0 10 20).2 ≠ 0 := by
  constructor <;> decide

/-- Claim C7 (amended): flash(0, dt_on, dt_off) on an activated LED performs
zero on/off cycles and incurs no delay, and the logical state is unchanged;
however the trailing switch_lightening step issues exactly one physical write
re-asserting the current level. -/
theorem flash_zero_count_behavior :
    ∀ (s : GLed) (a b : Nat), s.activated = true →
      (s.flash 0 a b).2
        = [Event.write s.pin (physical_level s.is_on s.on_is_high_level) true]
      ∧ delaySum (s.flash 0 a b).2 = 0
      ∧ (s.flash 0 a b).1.is_on = s.is_on := by
  intro s a b h
  rcases eq_or_ne s.state 0 with hst | hst
  · have hio : s.is_on = false := by simp [GLed.is_on, hst]
    simp [GLed.flash, MAX_FLASH, flashIter, GLed.switch_lightening, GLed.on,
      GLed.off, physical_level, h, hio, hst, GLed.is_on]
  · have hio : s.is_on = true := by simp [GLed.is_on, hst]
    simp [GLed.flash, MAX_FLASH, flashIter, GLed.switch_lightening, GLed.on,
      GLed.off, physical_level, h, hio, hst, GLed.is_on]

/-- Witness for the amended C7 at the concrete activated LED. -/
theorem flash_zero_count_behavior_witness :
    (demoActivated.flash 0 10 20).2
      = [Event.write demoActivated.pin
          (physical_level demoActivated.is_on demoActivated.on_is_high_level) true]
    ∧ delaySum (demoActivated.flash 0 10 20).2 = 0
    ∧ (demoActivated.flash 0 10 20).1.is_on = demoActivated.is_on :=
  flash_zero_count_behavior demoActivated 10 20 rfl

/-- Claim C8: reconnect_to_pin first runs end() — tearing down any background
task, so afterwards the handle is null and no task is alive — and then only
replaces pin and polarity and resets the logical state to off, emitting no
event beyond those of end() (in particular no further write to the old pin). -/
theorem reconnect_to_pin_teardown :
    ∀ (s : GLed) (q : Int) (l : gled_switching_logic_t), TaskInv s →
      (s.reconnect_to_pin q l).2 = (s.end_).2
      ∧ (s.reconnect_to_pin q l).1.flash_task_handle = none
      ∧ (s.reconnect_to_pin q l).1.alive = 0
      ∧ (s.reconnect_to_pin q l).1.pin = q
      ∧ (s.reconnect_to_pin q l).1.state = 0
      ∧ (s.reconnect_to_pin q l).1.activated = false
      ∧ (s.reconnect_to_pin q l).1.on_is_high_level = decide (l = HIGH_IS_ACTIVE) := by
  intro s q l h
  obtain ⟨p, st, act, hi, fc, don, doff, fth, al⟩ := s
  unfold TaskInv at h
  cases fth <;> simp at h <;> cases l <;> cases act <;>
    simp_all [GLed.reconnect_to_pin, GLed.end_, GLed.off, GLed.set_logic_mode]

/-- Witness for C8 at the concrete running-task LED, new pin 7, negative
logic. -/
theorem reconnect_to_pin_teardown_witness :
    (demoRunning.reconnect_to_pin 7 LOW_IS_ACTIVE).2 = (demoRunning.end_).2
    ∧ (demoRunning.reconnect_to_pin 7 LOW_IS_ACTIVE).1.flash_task_handle = none
    ∧ (demoRunning.reconnect_to_pin 7 LOW_IS_ACTIVE).1.alive = 0
    ∧ (demoRunning.reconnect_to_pin 7 LOW_IS_ACTIVE).1.pin = 7
    ∧ (demoRunning.reconnect_to_pin 7 LOW_IS_ACTIVE).1.state = 0
    ∧ (demoRunning.reconnect_to_pin 7 LOW_IS_ACTIVE).1.activated = false
    ∧ (demoRunning.reconnect_to_pin 7 LOW_IS_ACTIVE).1.on_is_high_level
        = decide (LOW_IS_ACTIVE = HIGH_IS_ACTIVE) :=
  reconnect_to_pin_teardown demoRunning 7 LOW_IS_ACTIVE (by decide)

end GLedModel
